import Mathlib

/-
Verification development for the azure-rag-accelerator ingestion pipeline.

Shallow embedding of the Python sources:
  app/backend/prepdocslib/sharepoint_errors.py
  app/backend/prepdocslib/enhanced_filestrategy.py
  app/backend/prepdocslib/plugins/enhanced_sharepoint_connector.py

Conventions of the embedding:
  - Python float arithmetic on delays, times and running averages is modelled
    with exact rationals; every concrete value appearing in the theorems is a
    small dyadic rational, on which the Python float computation is exact.
  - Python exceptions are modelled by explicit result values; a function that
    can crash (an uncaught TypeError) returns an Option, with none for the
    crash.
  - Python sets of strings are modelled with Finset String.
-/

/-! ## Python string and int helpers -/

/-- Decide whether the first list is an initial segment of the second. -/
def leadsList : List Char → List Char → Bool
  | [], _ => true
  | _ :: _, [] => false
  | p :: ps, c :: cs => p = c && leadsList ps cs

/-- Substring test on character lists. -/
def containsSubList (pat : List Char) : List Char → Bool
  | [] => pat.isEmpty
  | c :: cs => leadsList pat (c :: cs) || containsSubList pat cs

/-- Substring test, modelling the Python expression `pat in s`. -/
def containsSub (s pat : String) : Bool :=
  containsSubList pat.toList s.toList

/-- Drop leading whitespace characters. -/
def dropLeadingWs : List Char → List Char
  | [] => []
  | c :: rest => if c.isWhitespace then dropLeadingWs rest else c :: rest

/-- Strip whitespace from both ends of a character list. -/
def stripWs (l : List Char) : List Char :=
  (dropLeadingWs (dropLeadingWs l).reverse).reverse

/-- Numeric value of a list of decimal digit characters. -/
def digitsToNat (l : List Char) : Nat :=
  l.foldl (fun a c => a * 10 + (c.toNat - 48)) 0

/-- Parse a nonempty all-digit character list. -/
def parseDigits (l : List Char) : Option Nat :=
  if l ≠ [] ∧ l.all Char.isDigit then some (digitsToNat l) else none

/-- Model of Python int(s) on a string: optional surrounding whitespace,
optional sign, decimal digits; none models the ValueError branch. -/
def pyIntOfString (s : String) : Option Int :=
  match stripWs s.toList with
  | [] => none
  | c :: rest =>
    if c = '-' then (parseDigits rest).map (fun n => -(n : Int))
    else if c = '+' then (parseDigits rest).map (fun n => (n : Int))
    else (parseDigits (c :: rest)).map (fun n => (n : Int))

/-- Truthiness of an optional integer, modelling Python `if x:` where x is
None or an int (None and 0 are falsy). -/
def pyTruthyInt (r : Option Int) : Bool :=
  match r with
  | none => false
  | some n => n != 0

/-! ## sharepoint_errors.py: categories and SharePointError -/

/-- Embedding of the enum SharePointErrorCategory. -/
inductive SharePointErrorCategory where
  | authentication
  | authorization
  | token_expired
  | rate_limited
  | throttled
  | network_error
  | timeout
  | connection_error
  | resource_not_found
  | invalid_site_url
  | document_library_not_found
  | permission_denied
  | file_too_large
  | unsupported_file_type
  | file_corrupted
  | download_failed
  | service_unavailable
  | internal_server_error
  | bad_request
  | invalid_configuration
  | missing_permissions
  | unknown
deriving DecidableEq, Repr

/-- Embedding of the dataclass SharePointError. The fields original_exception,
context and timestamp are omitted: no claim observes them. -/
structure SharePointError where
  category : SharePointErrorCategory
  message : String
  error_code : Option String := none
  status_code : Option Int := none
  retry_after : Option Int := none
deriving DecidableEq, Repr

/-- Embedding of SharePointError.is_retryable: membership of the category in
the fixed retryable set. -/
def SharePointError.is_retryable (e : SharePointError) : Bool :=
  match e.category with
  | .rate_limited | .throttled | .network_error | .timeout | .connection_error
  | .service_unavailable | .internal_server_error => true
  | _ => false

/-- Embedding of SharePointError.get_retry_delay. Mirrors the source exactly:
return 0 when not retryable; honor a truthy retry_after verbatim; otherwise
branch on the category, where the network branch tests only NETWORK_ERROR and
TIMEOUT and everything else falls to the 1.5-power default. -/
def SharePointError.get_retry_delay (e : SharePointError) (attempt : Nat)
    (base_delay : ℚ) : ℚ :=
  if !e.is_retryable then 0
  else if pyTruthyInt e.retry_after then ((e.retry_after.getD 0 : Int) : ℚ)
  else if e.category = .rate_limited ∨ e.category = .throttled then
    min (base_delay * 3 ^ attempt) 300
  else if e.category = .network_error ∨ e.category = .timeout then
    min (base_delay * 2 ^ attempt) 60
  else
    min (base_delay * (3 / 2) ^ attempt) 30

/-! ## sharepoint_errors.py: exception classification -/

/-- Model of the HTTP-like response object carried by an exception.
status_code models getattr(response, status_code, None); headers is none when
the response has no headers attribute, and otherwise holds the value of
headers.get applied to the Retry-After key. -/
structure PyResponse where
  status_code : Option Int := none
  headers : Option (Option String) := none
deriving DecidableEq, Repr

/-- Model of a Python exception as observed by classify_exception: its str()
message, its type name, an optional response object, and the optional
error_code and code attributes. -/
structure PyException where
  message : String := ""
  type_name : String := ""
  response : Option PyResponse := none
  error_code : Option String := none
  code : Option String := none
deriving DecidableEq, Repr

/-- Retry-After extraction from a response: only when the headers attribute
exists; a missing or empty header leaves no value, a nonempty header is parsed
with int() and a parse failure leaves no value. -/
def extractRetryAfter (resp : PyResponse) : Option Int :=
  match resp.headers with
  | none => none
  | some none => none
  | some (some s) => if s = "" then none else pyIntOfString s

/-- Error-code extraction: the error_code attribute first, else the code
attribute. -/
def pyErrorCode (exc : PyException) : Option String :=
  match exc.error_code with
  | some c => some c
  | none => exc.code

/-- Status-code branch of classify_exception (source lines 200-214). -/
def classifyStatus (sc : Int) (error_message : String) : SharePointErrorCategory :=
  if sc = 401 then .authentication
  else if sc = 403 then
    if containsSub error_message.toLower "rate limit" ||
        containsSub error_message.toLower "throttl" then .rate_limited
    else .authorization
  else if sc = 404 then .resource_not_found
  else if sc = 429 then .rate_limited
  else if sc ≥ 500 then .service_unavailable
  else if sc ≥ 400 then .bad_request
  else .unknown

/-- Type-name and message branch of classify_exception (source lines
217-243), reached only when the exception carries no response object. -/
def classifyByText (type_name error_message : String) : SharePointErrorCategory :=
  let t := type_name.toLower
  let m := error_message.toLower
  if containsSub t "timeout" || containsSub m "timeout" then .timeout
  else if containsSub t "connection" || containsSub t "network" then .connection_error
  else if containsSub m "authentication" || containsSub m "token" then
    if containsSub m "expired" then .token_expired else .authentication
  else if containsSub m "rate limit" || containsSub m "throttl" ||
      containsSub m "too many requests" then .rate_limited
  else if containsSub m "file too large" || containsSub m "size limit" then .file_too_large
  else if containsSub m "unsupported" && containsSub m "file" then .unsupported_file_type
  else if containsSub m "invalid site" || containsSub m "site not found" then .invalid_site_url
  else if containsSub m "document library" && containsSub m "not found" then
    .document_library_not_found
  else .unknown

/-- Embedding of SharePointErrorClassifier.classify_exception. Returns none
exactly when the source raises: a response object whose status_code is None
reaches the comparison of None with 500, a TypeError in Python 3. -/
def SharePointErrorClassifier.classify_exception (exc : PyException) :
    Option SharePointError :=
  match exc.response with
  | some resp =>
    let retry_after := extractRetryAfter resp
    match resp.status_code with
    | none => none
    | some sc =>
      some { category := classifyStatus sc exc.message, message := exc.message,
             error_code := pyErrorCode exc, status_code := some sc,
             retry_after := retry_after }
  | none =>
    some { category := classifyByText exc.type_name exc.message,
           message := exc.message, error_code := pyErrorCode exc,
           status_code := none, retry_after := none }

/-! ## Claims C7 and C10: backoff formulas -/

/-- Concrete connection-category error with no retry hint. -/
def connResetError : SharePointError :=
  { category := .connection_error, message := "connection reset by peer" }

/-- C7 counterexample: a retryable connection-category error with no
retry_after hint gets the default 1.5-power backoff (3/2 at attempt 1 with
base 1), not the 2-power network backoff (which would give 2). -/
theorem connection_backoff_cex :
    connResetError.is_retryable = true ∧
    connResetError.retry_after = none ∧
    connResetError.get_retry_delay 1 1 = 3 / 2 ∧
    connResetError.get_retry_delay 1 1 ≠ 2 := by
  have h : connResetError.get_retry_delay 1 1 = min ((1 : ℚ) * (3 / 2) ^ 1) 30 := rfl
  rw [min_eq_left (by norm_num)] at h
  refine ⟨rfl, rfl, by rw [h]; norm_num, by rw [h]; norm_num⟩

/-- C7 as amended: with no retry_after hint, rate-limited and throttled back
off by base times 3 to the attempt capped at 300; network and timeout by base
times 2 to the attempt capped at 60; connection (with the other retryable
categories service-unavailable and internal-error) by base times 1.5 to the
attempt capped at 30. -/
theorem get_retry_delay_category_formulas (e : SharePointError) (attempt : Nat)
    (base : ℚ) (hra : e.retry_after = none) :
    ((e.category = .rate_limited ∨ e.category = .throttled) →
        e.get_retry_delay attempt base = min (base * 3 ^ attempt) 300) ∧
    ((e.category = .network_error ∨ e.category = .timeout) →
        e.get_retry_delay attempt base = min (base * 2 ^ attempt) 60) ∧
    ((e.category = .connection_error ∨ e.category = .service_unavailable ∨
        e.category = .internal_server_error) →
        e.get_retry_delay attempt base = min (base * (3 / 2) ^ attempt) 30) := by
  unfold SharePointError.get_retry_delay SharePointError.is_retryable pyTruthyInt
  rw [hra]
  refine ⟨?_, ?_, ?_⟩
  · rintro (h | h) <;> rw [h] <;> simp
  · rintro (h | h) <;> rw [h] <;> simp
  · rintro (h | h | h) <;> rw [h] <;> simp

/-- Witness for the amended C7 at concrete inputs. -/
theorem get_retry_delay_category_formulas_witness :
    (({ category := .network_error, message := "net down" } :
        SharePointError).get_retry_delay 2 1 = min ((1 : ℚ) * 2 ^ 2) 60) ∧
    (({ category := .throttled, message := "throttled" } :
        SharePointError).get_retry_delay 3 1 = min ((1 : ℚ) * 3 ^ 3) 300) :=
  ⟨(get_retry_delay_category_formulas _ 2 1 rfl).2.1 (Or.inl rfl),
   (get_retry_delay_category_formulas _ 3 1 rfl).1 (Or.inr rfl)⟩

/-- Concrete network-category error carrying retry_after equal to zero. -/
def networkZeroHintError : SharePointError :=
  { category := .network_error, message := "transient network failure",
    retry_after := some 0 }

/-- C10 counterexample: a retryable error carrying retry_after equal to 0 is
not honored verbatim: the truthiness test skips a zero hint and the category
formula runs instead, giving 1 rather than 0 at attempt 0 with base 1. -/
theorem retry_after_zero_cex :
    networkZeroHintError.is_retryable = true ∧
    networkZeroHintError.retry_after = some 0 ∧
    networkZeroHintError.get_retry_delay 0 1 = 1 ∧
    networkZeroHintError.get_retry_delay 0 1 ≠ 0 := by
  have h : networkZeroHintError.get_retry_delay 0 1 = min ((1 : ℚ) * 2 ^ 0) 60 := rfl
  rw [min_eq_left (by norm_num)] at h
  refine ⟨rfl, rfl, by rw [h]; norm_num, by rw [h]; norm_num⟩

/-- C10 as amended: a retryable error carrying a nonzero retry_after hint gets
exactly that delay, for every attempt number and category, never clamped to
the per-category ceilings. -/
theorem retry_after_hint_verbatim (e : SharePointError) (attempt : Nat)
    (base : ℚ) (r : Int) (hret : e.is_retryable = true)
    (hr : e.retry_after = some r) (hnz : r ≠ 0) :
    e.get_retry_delay attempt base = (r : ℚ) := by
  unfold SharePointError.get_retry_delay
  rw [hret, hr]
  simp [pyTruthyInt, hnz]

/-- Witness for the amended C10: a network-category error with a 500-unit hint
gets a 500-unit delay at attempt 3, far above the 60-unit network ceiling. -/
theorem retry_after_hint_verbatim_witness :
    ({ category := .network_error, message := "slow down",
       retry_after := some 500 } : SharePointError).get_retry_delay 3 1 =
      ((500 : Int) : ℚ) ∧ (60 : ℚ) < 500 :=
  ⟨retry_after_hint_verbatim _ 3 1 500 rfl rfl (by decide), by norm_num⟩

/-! ## Claim C4: HTTP status classification table -/

/-- C4: for every exception carrying an HTTP-like response object with a
status code, classify_exception maps the status code per the fixed table
(401 to authentication, 403 to authorization unless the message mentions rate
limiting then rate-limited, 404 to resource-not-found, 429 to rate-limited,
at least 500 to service-unavailable, other 4xx to bad-request) and extracts an
integer Retry-After header into retry_after when present; a 429 error is
retryable and a 401 error is not. -/
theorem classify_http_status_table (exc : PyException) (resp : PyResponse)
    (sc : Int) (hresp : exc.response = some resp)
    (hsc : resp.status_code = some sc) :
    ∃ err : SharePointError,
      SharePointErrorClassifier.classify_exception exc = some err ∧
      err.status_code = some sc ∧
      err.retry_after = extractRetryAfter resp ∧
      (∀ s n, resp.headers = some (some s) → s ≠ "" → pyIntOfString s = some n →
        err.retry_after = some n) ∧
      (sc = 401 → err.category = .authentication ∧ err.is_retryable = false) ∧
      (sc = 403 → (containsSub exc.message.toLower "rate limit" ||
          containsSub exc.message.toLower "throttl") = true →
        err.category = .rate_limited) ∧
      (sc = 403 → (containsSub exc.message.toLower "rate limit" ||
          containsSub exc.message.toLower "throttl") = false →
        err.category = .authorization) ∧
      (sc = 404 → err.category = .resource_not_found) ∧
      (sc = 429 → err.category = .rate_limited ∧ err.is_retryable = true) ∧
      (500 ≤ sc → err.category = .service_unavailable) ∧
      (400 ≤ sc → sc < 500 → sc ≠ 401 → sc ≠ 403 → sc ≠ 404 → sc ≠ 429 →
        err.category = .bad_request) := by
  refine ⟨{ category := classifyStatus sc exc.message, message := exc.message,
            error_code := pyErrorCode exc, status_code := some sc,
            retry_after := extractRetryAfter resp }, ?_, rfl, rfl, ?_, ?_, ?_, ?_, ?_, ?_, ?_, ?_⟩
  · unfold SharePointErrorClassifier.classify_exception
    rw [hresp]
    simp only []
    rw [hsc]
  · intro s n hh hs hp
    simp only [extractRetryAfter, hh, if_neg hs, hp]
  · rintro rfl
    exact ⟨by simp [classifyStatus], rfl⟩
  · rintro rfl hm
    simp [classifyStatus, hm]
  · rintro rfl hm
    simp [classifyStatus, hm]
  · rintro rfl
    simp [classifyStatus]
  · rintro rfl
    exact ⟨by simp [classifyStatus], rfl⟩
  · intro h5
    unfold classifyStatus
    rw [if_neg (by omega), if_neg (by omega), if_neg (by omega), if_neg (by omega),
      if_pos (by omega)]
  · intro h1 h2 h3 h4 h5 h6
    unfold classifyStatus
    rw [if_neg h3, if_neg h4, if_neg h5, if_neg h6, if_neg (by omega), if_pos (by omega)]

/-- Concrete response and exception: status 429 with a Retry-After header of
60. -/
def resp429 : PyResponse :=
  { status_code := some 429, headers := some (some "60") }

/-- Concrete rate-limited exception carrying resp429. -/
def exc429 : PyException :=
  { message := "Too Many Requests", type_name := "HttpResponseError",
    response := some resp429 }

/-- Concrete unauthorized exception: status 401, no Retry-After header. -/
def exc401 : PyException :=
  { message := "Unauthorized", type_name := "HttpResponseError",
    response := some { status_code := some 401, headers := some none } }

/-- Witness for C4 at the concrete 429 exception, with the concrete
classification results of the 429 and 401 exceptions checked by evaluation. -/
theorem classify_http_status_table_witness :
    (∃ err : SharePointError,
      SharePointErrorClassifier.classify_exception exc429 = some err ∧
      err.status_code = some 429 ∧
      err.retry_after = extractRetryAfter resp429 ∧
      (∀ s n, resp429.headers = some (some s) → s ≠ "" → pyIntOfString s = some n →
        err.retry_after = some n) ∧
      ((429 : Int) = 401 → err.category = .authentication ∧ err.is_retryable = false) ∧
      ((429 : Int) = 403 → (containsSub exc429.message.toLower "rate limit" ||
          containsSub exc429.message.toLower "throttl") = true →
        err.category = .rate_limited) ∧
      ((429 : Int) = 403 → (containsSub exc429.message.toLower "rate limit" ||
          containsSub exc429.message.toLower "throttl") = false →
        err.category = .authorization) ∧
      ((429 : Int) = 404 → err.category = .resource_not_found) ∧
      ((429 : Int) = 429 → err.category = .rate_limited ∧ err.is_retryable = true) ∧
      ((500 : Int) ≤ 429 → err.category = .service_unavailable) ∧
      ((400 : Int) ≤ 429 → (429 : Int) < 500 → (429 : Int) ≠ 401 → (429 : Int) ≠ 403 →
        (429 : Int) ≠ 404 → (429 : Int) ≠ 429 → err.category = .bad_request)) ∧
    Option.map SharePointError.category
      (SharePointErrorClassifier.classify_exception exc429) =
        some SharePointErrorCategory.rate_limited ∧
    Option.map SharePointError.retry_after
      (SharePointErrorClassifier.classify_exception exc429) = some (some 60) ∧
    Option.map SharePointError.is_retryable
      (SharePointErrorClassifier.classify_exception exc429) = some true ∧
    Option.map SharePointError.category
      (SharePointErrorClassifier.classify_exception exc401) =
        some SharePointErrorCategory.authentication ∧
    Option.map SharePointError.is_retryable
      (SharePointErrorClassifier.classify_exception exc401) = some false :=
  ⟨classify_http_status_table exc429 resp429 429 rfl rfl,
   by decide, by decide, by decide, by decide, by decide⟩

/-! ## enhanced_filestrategy.py: processing metrics -/

/-- Embedding of the dataclass ProcessingMetrics. Times and the running
average are exact rationals. -/
structure ProcessingMetrics where
  total_files : Nat := 0
  processed_files : Nat := 0
  failed_files : Nat := 0
  skipped_files : Nat := 0
  total_processing_time : ℚ := 0
  average_file_size : ℚ := 0
  concurrent_tasks : Nat := 0
  max_concurrent_tasks : Nat := 0
deriving DecidableEq, Repr

/-- Embedding of ProcessingMetrics.add_file_processed: increment the processed
count, add the time, and update the running mean of file sizes. -/
def ProcessingMetrics.add_file_processed (m : ProcessingMetrics)
    (processing_time : ℚ) (file_size : Nat) : ProcessingMetrics :=
  let m1 := { m with processed_files := m.processed_files + 1,
                     total_processing_time := m.total_processing_time + processing_time }
  if 0 < m1.processed_files then
    { m1 with average_file_size :=
        (m1.average_file_size * ((m1.processed_files : ℚ) - 1) + (file_size : ℚ)) /
          (m1.processed_files : ℚ) }
  else m1

/-- Embedding of ProcessingMetrics.add_file_failed. -/
def ProcessingMetrics.add_file_failed (m : ProcessingMetrics) : ProcessingMetrics :=
  { m with failed_files := m.failed_files + 1 }

/-- Embedding of ProcessingMetrics.add_file_skipped. -/
def ProcessingMetrics.add_file_skipped (m : ProcessingMetrics) : ProcessingMetrics :=
  { m with skipped_files := m.skipped_files + 1 }

/-! ## enhanced_filestrategy.py: per-file retry wrapper

The pipeline is modelled with metrics enabled (enable_metrics true, the
default), so self.metrics is never None. The behaviour of _process_single_file
on a given attempt is one of three outcomes taken from the source: the full
pipeline succeeds and returns True; parsing extracts no sections, in which
case the source calls add_file_skipped and returns True; or some stage raises,
in which case the exception propagates to the retry wrapper. -/

/-- Outcome of one invocation of _process_single_file. -/
inductive AttemptResult where
  | success
  | noContent
  | raiseError
deriving DecidableEq, Repr

/-- State threaded through the retry loop: the metrics object, the number of
invocations of _process_single_file, and the number of calls to file.close
(the finally block runs at the end of every loop iteration). -/
structure RetryState where
  metrics : ProcessingMetrics
  invocations : Nat
  closeCount : Nat
deriving DecidableEq, Repr

/-- Embedding of the loop body of _process_file_with_retry. The first argument
counts down the remaining iterations of range(retry_attempts); the current
attempt index is retry_attempts minus the remaining count. On True the wrapper
records the file as processed and returns; on an exception it sleeps and
continues when attempts remain, else records the failure and returns False.
The finally block closes the file on every path, once per iteration. -/
def processFileRetryLoop (behavior : Nat → AttemptResult) (times : Nat → ℚ)
    (fileSize : Nat) (retry_attempts : Nat) :
    Nat → RetryState → Bool × RetryState
  | 0, st => (false, st)
  | remaining + 1, st =>
    let attempt := retry_attempts - (remaining + 1)
    let st1 : RetryState := { st with invocations := st.invocations + 1 }
    match behavior attempt with
    | .success =>
      let m := st1.metrics.add_file_processed (times attempt) fileSize
      (true, { st1 with metrics := m, closeCount := st1.closeCount + 1 })
    | .noContent =>
      let m := (st1.metrics.add_file_skipped).add_file_processed (times attempt) fileSize
      (true, { st1 with metrics := m, closeCount := st1.closeCount + 1 })
    | .raiseError =>
      if attempt < retry_attempts - 1 then
        processFileRetryLoop behavior times fileSize retry_attempts remaining
          { st1 with closeCount := st1.closeCount + 1 }
      else
        (false, { st1 with metrics := st1.metrics.add_file_failed,
                           closeCount := st1.closeCount + 1 })

/-- Embedding of _process_file_with_retry on a fresh per-file state. -/
def processFileWithRetry (behavior : Nat → AttemptResult) (times : Nat → ℚ)
    (fileSize : Nat) (retry_attempts : Nat) (m : ProcessingMetrics) :
    Bool × RetryState :=
  processFileRetryLoop behavior times fileSize retry_attempts retry_attempts
    { metrics := m, invocations := 0, closeCount := 0 }

/-! ## enhanced_filestrategy.py: concurrent add driver

The driver _run_concurrent_add increments total_files once per discovered
file and schedules one retry-wrapped task per file. Every metrics update is a
single increment of a per-file counter (or the permutation-invariant running
mean), performed without an intervening suspension point, and the retry
wrapper never raises, so the final counter values do not depend on the
interleaving of the cooperating tasks; the fold below models the run in
completion order. -/

/-- One discovered file: the per-attempt outcomes of its pipeline stages, its
size, and its per-attempt processing times. -/
structure FileSpec where
  behavior : Nat → AttemptResult
  size : Nat
  times : Nat → ℚ

/-- Final metrics of a run of _run_concurrent_add over a list of files. -/
def runConcurrentAdd (retry_attempts : Nat) (files : List FileSpec) :
    ProcessingMetrics :=
  files.foldl
    (fun m f =>
      let m1 := { m with total_files := m.total_files + 1 }
      (processFileWithRetry f.behavior f.times f.size retry_attempts m1).2.metrics)
    {}

/-! ## Claim C3: metrics accounting of a no-content file -/

/-- C3 failing input: a run over one file from which no content is extracted.
The source counts it as skipped inside _process_single_file and then, because
_process_single_file returns True, the retry wrapper also counts it as
processed, so processed + failed + skipped exceeds total_files. -/
theorem no_content_double_count_bug :
    (runConcurrentAdd 3 [{ behavior := fun _ => .noContent, size := 0,
                           times := fun _ => 0 }]).total_files = 1 ∧
    (runConcurrentAdd 3 [{ behavior := fun _ => .noContent, size := 0,
                           times := fun _ => 0 }]).processed_files = 1 ∧
    (runConcurrentAdd 3 [{ behavior := fun _ => .noContent, size := 0,
                           times := fun _ => 0 }]).skipped_files = 1 ∧
    (runConcurrentAdd 3 [{ behavior := fun _ => .noContent, size := 0,
                           times := fun _ => 0 }]).failed_files = 0 ∧
    ¬ ((runConcurrentAdd 3 [{ behavior := fun _ => .noContent, size := 0,
                              times := fun _ => 0 }]).processed_files +
       (runConcurrentAdd 3 [{ behavior := fun _ => .noContent, size := 0,
                              times := fun _ => 0 }]).failed_files +
       (runConcurrentAdd 3 [{ behavior := fun _ => .noContent, size := 0,
                              times := fun _ => 0 }]).skipped_files ≤
       (runConcurrentAdd 3 [{ behavior := fun _ => .noContent, size := 0,
                              times := fun _ => 0 }]).total_files) := by
  refine ⟨rfl, rfl, rfl, rfl, by decide⟩

/-! ## Claim C5: retry exhaustion -/

/-- Loop lemma: if every attempt raises, the loop runs all remaining
iterations, invoking the processing operation once per iteration and closing
the file once per iteration, and records exactly one failure at the end. -/
theorem processFileRetryLoop_raise_all (behavior : Nat → AttemptResult)
    (times : Nat → ℚ) (fileSize N : Nat)
    (hb : ∀ i, i < N → behavior i = .raiseError) :
    ∀ remaining, 1 ≤ remaining → remaining ≤ N → ∀ st : RetryState,
      (processFileRetryLoop behavior times fileSize N remaining st).1 = false ∧
      (processFileRetryLoop behavior times fileSize N remaining st).2.metrics =
        st.metrics.add_file_failed ∧
      (processFileRetryLoop behavior times fileSize N remaining st).2.invocations =
        st.invocations + remaining ∧
      (processFileRetryLoop behavior times fileSize N remaining st).2.closeCount =
        st.closeCount + remaining := by
  intro remaining
  induction remaining with
  | zero => intro h1; omega
  | succ r ih =>
    intro h1 h2 st
    have hlt : N - (r + 1) < N := by omega
    simp only [processFileRetryLoop, hb _ hlt]
    rcases Nat.eq_zero_or_pos r with hr | hr
    · subst hr
      rw [if_neg (by omega)]
      exact ⟨rfl, rfl, rfl, rfl⟩
    · rw [if_pos (by omega)]
      obtain ⟨ih1, ih2, ih3, ih4⟩ := ih (by omega) (by omega)
        { st with invocations := st.invocations + 1, closeCount := st.closeCount + 1 }
      refine ⟨ih1, ih2, ?_, ?_⟩
      · rw [ih3]
        show st.invocations + 1 + r = st.invocations + (r + 1)
        omega
      · rw [ih4]
        show st.closeCount + 1 + r = st.closeCount + (r + 1)
        omega

/-- C5: for a file whose processing raises on every attempt, with
retry_attempts equal to N at least 1, the wrapper invokes
_process_single_file exactly N times, increments failed_files exactly once,
and returns the failure outcome False; the embedding is a total function, so
no exception crosses the retry boundary. -/
theorem retry_exhaustion_counts (N : Nat) (hN : 1 ≤ N)
    (behavior : Nat → AttemptResult) (times : Nat → ℚ) (fileSize : Nat)
    (m : ProcessingMetrics) (hb : ∀ i, i < N → behavior i = .raiseError) :
    (processFileWithRetry behavior times fileSize N m).1 = false ∧
    (processFileWithRetry behavior times fileSize N m).2.invocations = N ∧
    (processFileWithRetry behavior times fileSize N m).2.metrics.failed_files =
      m.failed_files + 1 := by
  obtain ⟨h1, h2, h3, _⟩ := processFileRetryLoop_raise_all behavior times fileSize N hb
    N hN le_rfl { metrics := m, invocations := 0, closeCount := 0 }
  refine ⟨h1, ?_, ?_⟩
  · rw [processFileWithRetry, h3]
    show 0 + N = N
    omega
  · rw [processFileWithRetry, h2]
    rfl

/-- Witness for C5: an always-failing file with retry_attempts 2 on fresh
metrics is invoked twice, reported failed once, and returns False. -/
theorem retry_exhaustion_counts_witness :
    (processFileWithRetry (fun _ => .raiseError) (fun _ => 0) 0 2 {}).1 = false ∧
    (processFileWithRetry (fun _ => .raiseError) (fun _ => 0) 0 2 {}).2.invocations = 2 ∧
    (processFileWithRetry (fun _ => .raiseError) (fun _ => 0) 0 2
        {}).2.metrics.failed_files = ({} : ProcessingMetrics).failed_files + 1 :=
  retry_exhaustion_counts 2 (by omega) (fun _ => .raiseError) (fun _ => 0) 0 {}
    (fun _ _ => rfl)

/-! ## Claim C8: file close discipline -/

/-- Behavior of a file whose first attempt raises and whose second attempt
succeeds. -/
def transientFailure : Nat → AttemptResult :=
  fun i => if i = 0 then .raiseError else .success

/-- C8 failing input: the finally block of _process_file_with_retry runs at
the end of every loop iteration, so a file that fails once and then succeeds
is closed twice, the first time between the failed attempt and the retry,
not once after the terminal outcome. -/
theorem file_closed_between_attempts_bug :
    (processFileWithRetry transientFailure (fun _ => 0) 100 2 {}).1 = true ∧
    (processFileWithRetry transientFailure (fun _ => 0) 100 2 {}).2.invocations = 2 ∧
    (processFileWithRetry transientFailure (fun _ => 0) 100 2 {}).2.closeCount = 2 ∧
    (processFileWithRetry (fun _ => .raiseError) (fun _ => 0) 100 2 {}).2.closeCount
      = 2 := by
  refine ⟨?_, ?_, ?_, ?_⟩ <;> rfl

/-! ## Claim C9: running mean of file sizes -/

/-- One call to add_file_processed increments the processed count and keeps
the product of the average with the new count equal to the old product plus
the new size. -/
theorem add_file_processed_mean_step (m : ProcessingMetrics) (t : ℚ) (x : Nat) :
    (m.add_file_processed t x).processed_files = m.processed_files + 1 ∧
    (m.add_file_processed t x).average_file_size * ((m.processed_files : ℚ) + 1) =
      m.average_file_size * (m.processed_files : ℚ) + (x : ℚ) := by
  unfold ProcessingMetrics.add_file_processed
  rw [if_pos (Nat.succ_pos m.processed_files)]
  refine ⟨rfl, ?_⟩
  have hne : ((m.processed_files : ℚ) + 1) ≠ 0 := by positivity
  push_cast
  rw [div_mul_cancel₀ _ hne]
  ring

/-- Fold form of the running-mean invariant, for any starting metrics. -/
theorem fold_processed_mean (l : List (ℚ × Nat)) :
    ∀ m : ProcessingMetrics,
      (l.foldl (fun acc p => acc.add_file_processed p.1 p.2) m).processed_files =
        m.processed_files + l.length ∧
      (l.foldl (fun acc p => acc.add_file_processed p.1 p.2) m).average_file_size *
          ((m.processed_files : ℚ) + (l.length : ℚ)) =
        m.average_file_size * (m.processed_files : ℚ) +
          (l.map fun p => ((p.2 : Nat) : ℚ)).sum := by
  induction l with
  | nil => intro m; simp
  | cons p t ih =>
    intro m
    obtain ⟨hs1, hs2⟩ := add_file_processed_mean_step m p.1 p.2
    obtain ⟨ih1, ih2⟩ := ih (m.add_file_processed p.1 p.2)
    rw [hs1] at ih1 ih2
    simp only [List.foldl_cons, List.length_cons, List.map_cons, List.sum_cons]
    refine ⟨by rw [ih1]; omega, ?_⟩
    push_cast at ih2 ⊢
    linear_combination ih2 + hs2

/-- C9: starting from fresh metrics, after any nonempty sequence of
add_file_processed calls the running average_file_size equals the arithmetic
mean of the file sizes processed so far. -/
theorem average_file_size_is_mean (l : List (ℚ × Nat)) (hl : l ≠ []) :
    (l.foldl (fun acc p => acc.add_file_processed p.1 p.2)
        ({} : ProcessingMetrics)).average_file_size =
      (l.map fun p => ((p.2 : Nat) : ℚ)).sum / (l.length : ℚ) := by
  obtain ⟨_, h2⟩ := fold_processed_mean l {}
  have e1 : ({} : ProcessingMetrics).processed_files = 0 := rfl
  have e2 : ({} : ProcessingMetrics).average_file_size = 0 := rfl
  rw [e1, e2] at h2
  have hlen : (l.length : ℚ) ≠ 0 := by
    have : l.length ≠ 0 := fun h => hl (List.length_eq_zero.mp h)
    exact_mod_cast this
  rw [eq_div_iff hlen]
  push_cast at h2
  linarith [h2]

/-- Witness for C9: processing sizes 1024 then 2048 yields an average of
1536. -/
theorem average_file_size_is_mean_witness :
    ([((0 : ℚ), 1024), ((0 : ℚ), 2048)].foldl
        (fun acc p => acc.add_file_processed p.1 p.2)
        ({} : ProcessingMetrics)).average_file_size = 1536 := by
  rw [average_file_size_is_mean [((0 : ℚ), 1024), ((0 : ℚ), 2048)]
    (List.cons_ne_nil _ _)]
  norm_num

/-! ## enhanced_sharepoint_connector.py: sync state -/

/-- Embedding of the dataclass SyncState; the three file collections are
Python sets of identifier strings. -/
structure SyncState where
  last_sync_timestamp : Option String := none
  processed_files : Finset String := ∅
  failed_files : Finset String := ∅
  skipped_files : Finset String := ∅
  total_files_processed : Nat := 0
  last_successful_sync : Option String := none
  incremental_sync_enabled : Bool := true
deriving DecidableEq

/-- Contents of a parsed sync-state JSON document, as read by
_load_sync_state; each field is none when the key is absent. -/
structure SyncFileData where
  last_sync_timestamp : Option String := none
  processed_files : Option (List String) := none
  failed_files : Option (List String) := none
  skipped_files : Option (List String) := none
  total_files_processed : Option Nat := none
  last_successful_sync : Option String := none
  incremental_sync_enabled : Option Bool := none

/-- Embedding of _load_sync_state on a successfully parsed document: each
field is taken with the defaults of dict.get used in the source. -/
def load_sync_state (d : SyncFileData) : SyncState :=
  { last_sync_timestamp := d.last_sync_timestamp
    processed_files := (d.processed_files.getD []).toFinset
    failed_files := (d.failed_files.getD []).toFinset
    skipped_files := (d.skipped_files.getD []).toFinset
    total_files_processed := d.total_files_processed.getD 0
    last_successful_sync := d.last_successful_sync
    incremental_sync_enabled := d.incremental_sync_enabled.getD true }

/-! ## enhanced_sharepoint_connector.py: download with retry -/

/-- Outcome of _download_file_with_retry for one item. -/
inductive DownloadOutcome where
  | skippedProcessed
  | skippedFailed
  | downloaded
  | failedPermanently
deriving DecidableEq, Repr

/-- Result of the download wrapper: its outcome, the number of invocations of
the underlying download operation _download_file_content_with_client, the
backoff delays slept between attempts, and the sync state afterwards. -/
structure DownloadResult where
  outcome : DownloadOutcome
  downloadCalls : Nat
  delays : List ℚ
  finalState : SyncState
deriving DecidableEq

/-- Embedding of the attempt loop of _download_file_with_retry. The function
attemptExc gives, per attempt index, none when the download returns a file
and the raised exception otherwise (a wait_for timeout is one such
exception). When attempts remain the source classifies the exception and
sleeps for get_retry_delay regardless of retryability; the overall none
result models the classifier crash on a status-less response. Returns the
success flag, the invocation count and the collected delays. -/
def downloadRetryLoop (retry_attempts : Nat) (retry_delay : ℚ)
    (attemptExc : Nat → Option PyException) :
    Nat → Nat → List ℚ → Option (Bool × Nat × List ℚ)
  | 0, calls, ds => some (false, calls, ds)
  | remaining + 1, calls, ds =>
    let attempt := retry_attempts - (remaining + 1)
    match attemptExc attempt with
    | none => some (true, calls + 1, ds)
    | some e =>
      if attempt < retry_attempts - 1 then
        match SharePointErrorClassifier.classify_exception e with
        | none => none
        | some sp =>
          downloadRetryLoop retry_attempts retry_delay attemptExc remaining
            (calls + 1) (ds ++ [sp.get_retry_delay attempt retry_delay])
      else some (false, calls + 1, ds)

/-- Embedding of _download_file_with_retry: skip when the identifier is in
processed_files (also inserting it into skipped_files), skip when it is in
failed_files (no time condition is checked in the source), otherwise run the
attempt loop; on exhaustion the identifier is added to failed_files. -/
def downloadFileWithRetry (retry_attempts : Nat) (retry_delay : ℚ)
    (attemptExc : Nat → Option PyException) (file_url : String)
    (st : SyncState) : Option DownloadResult :=
  if file_url ∈ st.processed_files then
    some { outcome := .skippedProcessed, downloadCalls := 0, delays := [],
           finalState := { st with skipped_files := insert file_url st.skipped_files } }
  else if file_url ∈ st.failed_files then
    some { outcome := .skippedFailed, downloadCalls := 0, delays := [],
           finalState := st }
  else
    match downloadRetryLoop retry_attempts retry_delay attemptExc retry_attempts
        0 [] with
    | none => none
    | some (true, calls, ds) =>
      some { outcome := .downloaded, downloadCalls := calls, delays := ds,
             finalState := st }
    | some (false, calls, ds) =>
      some { outcome := .failedPermanently, downloadCalls := calls, delays := ds,
             finalState := { st with failed_files := insert file_url st.failed_files } }

/-! ## Claim C1: skipping persisted failed files -/

/-- Persisted sync-state document of a previous run in which the identifier
exhausted its retries and was recorded in failed_files. -/
def previousRunData : SyncFileData :=
  { failed_files := some ["https://contoso.example/doc1"] }

/-- C1 failing input: after reloading a sync state whose failed_files holds
the identifier, a new run skips the file with zero invocations of the
download operation, even though every download attempt would succeed; the
source comment announces a time condition that the code never checks. -/
theorem failed_file_skipped_on_new_run_bug :
    ("https://contoso.example/doc1" ∈ (load_sync_state previousRunData).failed_files ∧
     "https://contoso.example/doc1" ∉ (load_sync_state previousRunData).processed_files) ∧
    (downloadFileWithRetry 3 1 (fun _ => none) "https://contoso.example/doc1"
        (load_sync_state previousRunData)).map DownloadResult.outcome =
      some .skippedFailed ∧
    (downloadFileWithRetry 3 1 (fun _ => none) "https://contoso.example/doc1"
        (load_sync_state previousRunData)).map DownloadResult.downloadCalls =
      some 0 ∧
    (downloadFileWithRetry 3 1 (fun _ => none) "doc2"
        (load_sync_state previousRunData)).map DownloadResult.outcome =
      some .downloaded := by
  refine ⟨⟨?_, ?_⟩, ?_, ?_, ?_⟩ <;> decide

/-! ## Claim C2: non-retryable errors in the download retry loop -/

/-- Non-retryable errors get a zero backoff delay. -/
theorem get_retry_delay_nonretryable (e : SharePointError)
    (h : e.is_retryable = false) (a : Nat) (b : ℚ) :
    e.get_retry_delay a b = 0 := by
  unfold SharePointError.get_retry_delay
  rw [h]
  simp

/-- C2 counterexample: with retry_attempts 2 and an authentication error
(status 401, non-retryable) raised on every attempt, the download operation
is invoked twice, not once; the inter-attempt delay is zero because
get_retry_delay returns 0 for a non-retryable error, but the loop never
consults is_retryable and retries anyway. -/
theorem nonretryable_invoked_twice_cex :
    (downloadFileWithRetry 2 1 (fun _ => some exc401) "u" {}).map
      DownloadResult.downloadCalls = some 2 ∧
    (downloadFileWithRetry 2 1 (fun _ => some exc401) "u" {}).map
      DownloadResult.outcome = some .failedPermanently ∧
    (downloadFileWithRetry 2 1 (fun _ => some exc401) "u" {}).map
      DownloadResult.delays = some [0] := by
  refine ⟨?_, ?_, ?_⟩ <;> decide

/-- Loop lemma: a constant non-retryable exception makes the loop run all its
remaining iterations, one download invocation each, sleeping zero units
between attempts. -/
theorem downloadRetryLoop_nonretryable (N : Nat) (d : ℚ) (e : PyException)
    (sp : SharePointError)
    (hc : SharePointErrorClassifier.classify_exception e = some sp)
    (hnr : sp.is_retryable = false) :
    ∀ remaining, 1 ≤ remaining → remaining ≤ N → ∀ calls ds,
      downloadRetryLoop N d (fun _ => some e) remaining calls ds =
        some (false, calls + remaining, ds ++ List.replicate (remaining - 1) 0) := by
  intro remaining
  induction remaining with
  | zero => intro h1; omega
  | succ r ih =>
    intro h1 h2 calls ds
    simp only [downloadRetryLoop]
    rcases Nat.eq_zero_or_pos r with hr | hr
    · subst hr
      rw [if_neg (by omega)]
      simp
    · rw [if_pos (by omega), hc]
      simp only []
      rw [get_retry_delay_nonretryable sp hnr]
      rw [ih (by omega) (by omega)]
      have e1 : calls + 1 + r = calls + (r + 1) := by omega
      have e2 : ds ++ [(0 : ℚ)] ++ List.replicate (r - 1) (0 : ℚ) =
          ds ++ List.replicate (r + 1 - 1) (0 : ℚ) := by
        have hr1 : r + 1 - 1 = (r - 1) + 1 := by omega
        rw [hr1, List.append_assoc, List.singleton_append, ← List.replicate_succ]
      rw [e1, e2]

/-- C2 as amended: a file whose every attempt raises a non-retryable error is
not failed after one invocation; the loop ignores retryability and performs
all retry_attempts invocations of the download operation, sleeping zero units
between attempts, and only then records the file as permanently failed by
adding its identifier to failed_files. -/
theorem nonretryable_retries_all_attempts (N : Nat) (hN : 1 ≤ N) (d : ℚ)
    (e : PyException) (sp : SharePointError)
    (hc : SharePointErrorClassifier.classify_exception e = some sp)
    (hnr : sp.is_retryable = false) (url : String) (st : SyncState)
    (hp : url ∉ st.processed_files) (hf : url ∉ st.failed_files) :
    downloadFileWithRetry N d (fun _ => some e) url st =
      some { outcome := .failedPermanently, downloadCalls := N,
             delays := List.replicate (N - 1) 0,
             finalState := { st with failed_files := insert url st.failed_files } } := by
  unfold downloadFileWithRetry
  rw [if_neg hp, if_neg hf]
  rw [downloadRetryLoop_nonretryable N d e sp hc hnr N hN le_rfl 0 []]
  simp

/-- Concrete classification of exc401, for the C2 witness. -/
def sp401 : SharePointError :=
  { category := .authentication, message := "Unauthorized",
    status_code := some 401 }

/-- Witness for the amended C2 at the concrete 401 exception with
retry_attempts 2 on an empty sync state. -/
theorem nonretryable_retries_all_attempts_witness :
    downloadFileWithRetry 2 1 (fun _ => some exc401) "u" {} =
      some { outcome := .failedPermanently, downloadCalls := 2,
             delays := List.replicate (2 - 1) 0,
             finalState := { ({} : SyncState) with
                             failed_files := insert "u" ({} : SyncState).failed_files } } :=
  nonretryable_retries_all_attempts 2 (by omega) 1 exc401 sp401 (by decide) rfl
    "u" {} (by decide) (by decide)

/-! ## Claim C6: semaphore concurrency bounds

The cooperative scheduler of the concurrent add pipeline is modelled as a
transition system over the phases of a fixed finite set of tasks. Each task
mirrors the structure of the code: _process_file_with_semaphore wraps the
whole per-file critical section in the file-processing semaphore, and inside
it _upload_with_semaphore wraps each upload in the download semaphore, which
is released before the processing slot is. A semaphore initialized with n
permits admits an acquire exactly when fewer than n tasks currently hold it,
which is the gate hypothesis of the acquire steps; every interleaving of the
scheduler is a path of the step relation. -/

/-- Phase of one task: not yet admitted, inside the file-processing critical
section (with or without a download slot), or finished. -/
inductive TaskPhase where
  | idle
  | processing (downloading : Bool)
  | done
deriving DecidableEq, Repr

/-- Whether a task in this phase holds the file-processing semaphore. -/
def TaskPhase.holdsFileSlot : TaskPhase → Bool
  | .processing _ => true
  | _ => false

/-- Whether a task in this phase holds the download semaphore. -/
def TaskPhase.holdsDownloadSlot : TaskPhase → Bool
  | .processing true => true
  | _ => false

/-- Number of tasks inside the file-processing critical section. -/
def fileSlotCount {k : Nat} (s : Fin k → TaskPhase) : Nat :=
  ∑ i, if (s i).holdsFileSlot then 1 else 0

/-- Number of tasks inside the upload/download critical section. -/
def downloadSlotCount {k : Nat} (s : Fin k → TaskPhase) : Nat :=
  ∑ i, if (s i).holdsDownloadSlot then 1 else 0

/-- One scheduler transition of the concurrent add pipeline: admitting a task
through the file semaphore, entering or leaving the download semaphore inside
a processing slot, or finishing and releasing the processing slot. -/
inductive PipelineStep (maxFiles maxDownloads : Nat) {k : Nat} :
    (Fin k → TaskPhase) → (Fin k → TaskPhase) → Prop where
  | acquireFile (s : Fin k → TaskPhase) (i : Fin k) (hi : s i = .idle)
      (hgate : fileSlotCount s < maxFiles) :
      PipelineStep maxFiles maxDownloads s (Function.update s i (.processing false))
  | acquireDownload (s : Fin k → TaskPhase) (i : Fin k)
      (hi : s i = .processing false)
      (hgate : downloadSlotCount s < maxDownloads) :
      PipelineStep maxFiles maxDownloads s (Function.update s i (.processing true))
  | releaseDownload (s : Fin k → TaskPhase) (i : Fin k)
      (hi : s i = .processing true) :
      PipelineStep maxFiles maxDownloads s (Function.update s i (.processing false))
  | finishFile (s : Fin k → TaskPhase) (i : Fin k)
      (hi : s i = .processing false) :
      PipelineStep maxFiles maxDownloads s (Function.update s i .done)

/-- Updating one task changes an indicator sum by swapping that task's
indicator. -/
theorem slotCount_update {k : Nat} (f : TaskPhase → Bool) (s : Fin k → TaskPhase)
    (i : Fin k) (p : TaskPhase) :
    (∑ j, if f (Function.update s i p j) then 1 else 0) + (if f (s i) then 1 else 0) =
      (∑ j, if f (s j) then 1 else 0) + (if f p then 1 else 0) := by
  have hfun : (fun j => if f (Function.update s i p j) then (1 : Nat) else 0) =
      Function.update (fun j => if f (s j) then (1 : Nat) else 0) i
        (if f p then 1 else 0) := by
    funext j
    rcases eq_or_ne j i with hj | hj
    · subst hj; simp [Function.update_same]
    · simp [Function.update_noteq hj]
  calc (∑ j, if f (Function.update s i p j) then (1 : Nat) else 0) +
        (if f (s i) then 1 else 0)
      = ((if f p then 1 else 0) +
          ∑ j ∈ Finset.univ \ {i}, if f (s j) then (1 : Nat) else 0) +
        (if f (s i) then 1 else 0) := by
        rw [show (∑ j, if f (Function.update s i p j) then (1 : Nat) else 0) =
          ∑ j, Function.update (fun j => if f (s j) then (1 : Nat) else 0) i
            (if f p then 1 else 0) j from by rw [← hfun]]
        rw [Finset.sum_update_of_mem (Finset.mem_univ i)]
    _ = (∑ j, if f (s j) then (1 : Nat) else 0) + (if f p then 1 else 0) := by
        rw [Finset.sum_eq_sum_diff_singleton_add (Finset.mem_univ i)
          (fun j => if f (s j) then (1 : Nat) else 0)]
        omega

/-- Updating one task changes the file-slot count by swapping that task's
indicator. -/
theorem fileSlotCount_update {k : Nat} (s : Fin k → TaskPhase) (i : Fin k)
    (p : TaskPhase) :
    fileSlotCount (Function.update s i p) + (if (s i).holdsFileSlot then 1 else 0) =
      fileSlotCount s + (if p.holdsFileSlot then 1 else 0) :=
  slotCount_update TaskPhase.holdsFileSlot s i p

/-- Updating one task changes the download-slot count by swapping that task's
indicator. -/
theorem downloadSlotCount_update {k : Nat} (s : Fin k → TaskPhase) (i : Fin k)
    (p : TaskPhase) :
    downloadSlotCount (Function.update s i p) +
        (if (s i).holdsDownloadSlot then 1 else 0) =
      downloadSlotCount s + (if p.holdsDownloadSlot then 1 else 0) :=
  slotCount_update TaskPhase.holdsDownloadSlot s i p

/-- One transition preserves both semaphore bounds. -/
theorem pipeline_step_bounds {k : Nat} {maxFiles maxDownloads : Nat}
    {s t : Fin k → TaskPhase} (h : PipelineStep maxFiles maxDownloads s t)
    (h1 : fileSlotCount s ≤ maxFiles) (h2 : downloadSlotCount s ≤ maxDownloads) :
    fileSlotCount t ≤ maxFiles ∧ downloadSlotCount t ≤ maxDownloads := by
  cases h with
  | acquireFile i hi hgate =>
    have hf : fileSlotCount (Function.update s i (TaskPhase.processing false)) + 0 =
        fileSlotCount s + 1 := by
      have hu := fileSlotCount_update s i (TaskPhase.processing false)
      rw [hi] at hu
      exact hu
    have hd : downloadSlotCount (Function.update s i (TaskPhase.processing false)) + 0 =
        downloadSlotCount s + 0 := by
      have hu := downloadSlotCount_update s i (TaskPhase.processing false)
      rw [hi] at hu
      exact hu
    exact ⟨by omega, by omega⟩
  | acquireDownload i hi hgate =>
    have hf : fileSlotCount (Function.update s i (TaskPhase.processing true)) + 1 =
        fileSlotCount s + 1 := by
      have hu := fileSlotCount_update s i (TaskPhase.processing true)
      rw [hi] at hu
      exact hu
    have hd : downloadSlotCount (Function.update s i (TaskPhase.processing true)) + 0 =
        downloadSlotCount s + 1 := by
      have hu := downloadSlotCount_update s i (TaskPhase.processing true)
      rw [hi] at hu
      exact hu
    exact ⟨by omega, by omega⟩
  | releaseDownload i hi =>
    have hf : fileSlotCount (Function.update s i (TaskPhase.processing false)) + 1 =
        fileSlotCount s + 1 := by
      have hu := fileSlotCount_update s i (TaskPhase.processing false)
      rw [hi] at hu
      exact hu
    have hd : downloadSlotCount (Function.update s i (TaskPhase.processing false)) + 1 =
        downloadSlotCount s + 0 := by
      have hu := downloadSlotCount_update s i (TaskPhase.processing false)
      rw [hi] at hu
      exact hu
    exact ⟨by omega, by omega⟩
  | finishFile i hi =>
    have hf : fileSlotCount (Function.update s i TaskPhase.done) + 1 =
        fileSlotCount s + 0 := by
      have hu := fileSlotCount_update s i TaskPhase.done
      rw [hi] at hu
      exact hu
    have hd : downloadSlotCount (Function.update s i TaskPhase.done) + 0 =
        downloadSlotCount s + 0 := by
      have hu := downloadSlotCount_update s i TaskPhase.done
      rw [hi] at hu
      exact hu
    exact ⟨by omega, by omega⟩

/-- C6: in every state reachable by any interleaving of the scheduler from
the all-idle start, at most maxFiles tasks are inside the file-processing
critical section and at most maxDownloads operations are inside the
upload/download critical section: the two counting semaphores enforce both
bounds. -/
theorem semaphore_concurrency_bounds {k : Nat} (maxFiles maxDownloads : Nat)
    (s : Fin k → TaskPhase)
    (hreach : Relation.ReflTransGen (PipelineStep maxFiles maxDownloads)
      (fun _ => TaskPhase.idle) s) :
    fileSlotCount s ≤ maxFiles ∧ downloadSlotCount s ≤ maxDownloads := by
  induction hreach with
  | refl =>
    constructor <;>
      simp [fileSlotCount, downloadSlotCount, TaskPhase.holdsFileSlot,
        TaskPhase.holdsDownloadSlot]
  | tail hsteps hstep ih => exact pipeline_step_bounds hstep ih.1 ih.2

/-- Witness for C6: with the default limits 5 and 10 and three tasks, the
state reached by admitting task 0 through the file semaphore satisfies both
bounds. -/
theorem semaphore_concurrency_bounds_witness :
    fileSlotCount (Function.update (fun _ : Fin 3 => TaskPhase.idle) 0
        (TaskPhase.processing false)) ≤ 5 ∧
    downloadSlotCount (Function.update (fun _ : Fin 3 => TaskPhase.idle) 0
        (TaskPhase.processing false)) ≤ 10 :=
  semaphore_concurrency_bounds 5 10 _
    (Relation.ReflTransGen.single
      (PipelineStep.acquireFile (fun _ : Fin 3 => TaskPhase.idle) 0 rfl (by decide)))
